import Mathlib

/-!
Shallow embedding of the plot-enrichment subsystem of the movie-blog
repository (src/scripts/plot_finder.py and src/scripts/web_plot_scraper.py),
together with theorems settling the specification claims about it.

Python strings are modelled as Lean `String`; Python's substring test
`pat in s` is modelled by `containsStr`, `s.lower()` by `strLower`,
`s.strip()` by `strTrim`, and `s.split('.')` by `splitOnChar` on the
character list (the period is written `Char.ofNat 46`).
-/

set_option maxRecDepth 200000

namespace PlotFinder

/-- Occurrence of `pat` as a contiguous sublist of the second argument
(Python's `in` operator on strings, on the underlying character lists). -/
def subOccurs (pat : List Char) : List Char → Bool
  | [] => pat.isEmpty
  | c :: cs => pat.isPrefixOf (c :: cs) || subOccurs pat cs

/-- Python `pat in s` for strings. -/
def containsStr (s pat : String) : Bool := subOccurs pat.data s.data

/-- Python `s.lower()` (character-wise lowering, as on the ASCII texts the
script handles). -/
def strLower (s : String) : String := String.mk (s.data.map Char.toLower)

/-- Python `s.strip()`: remove leading and trailing whitespace. -/
def strTrim (s : String) : String :=
  String.mk (((s.data.dropWhile Char.isWhitespace).reverse.dropWhile
    Char.isWhitespace).reverse)

/-- Python `s.split(sep)` for a one-character separator, on character lists:
`splitOnChar sep l` has one part per stretch between occurrences of `sep`. -/
def splitOnChar (sep : Char) : List Char → List (List Char)
  | [] => [[]]
  | c :: cs =>
    let r := splitOnChar sep cs
    if c = sep then [] :: r
    else
      match r with
      | [] => [[c]]
      | h :: t => (c :: h) :: t

/-- plot_finder.py lines 231-237. -/
def security_indicators : List String :=
  ["cloudflare", "security service", "online attacks", "ray id",
   "blocked", "triggered the security solution", "sql command",
   "malformed data", "performance & security by",
   "this website is using a security service",
   "you were blocked", "click to reveal", "your ip"]

/-- plot_finder.py lines 240-244. -/
def error_indicators : List String :=
  ["404 not found", "403 forbidden", "500 internal server error",
   "page not found", "access denied", "server error",
   "temporarily unavailable", "under maintenance"]

/-- plot_finder.py lines 247-251. -/
def privacy_indicators : List String :=
  ["cookie policy", "privacy policy", "gdpr", "accept cookies",
   "we use cookies", "consent", "data protection",
   "terms of service", "privacy notice"]

/-- plot_finder.py lines 254-258. -/
def commercial_indicators : List String :=
  ["subscribe now", "sign up", "create account", "login required",
   "premium content", "advertisement", "sponsored content",
   "newsletter", "follow us", "social media"]

/-- plot_finder.py lines 261-265. -/
def ui_indicators : List String :=
  ["home page", "contact us", "about us", "search results",
   "navigation menu", "sidebar", "footer", "header",
   "click here", "read more", "load more"]

/-- plot_finder.py lines 267-268. -/
def all_indicators : List String :=
  security_indicators ++ error_indicators ++ privacy_indicators ++
    commercial_indicators ++ ui_indicators

/-- plot_finder.py line 271: number of noise indicators occurring in the
lower-cased text. -/
def indicatorCount (text_lower : String) : Nat :=
  all_indicators.countP (fun i => containsStr text_lower i)

/-- plot_finder.py lines 282-288. -/
def simulated_patterns : List String :=
  ["follows the journey of a protagonist who faces numerous challenges",
   "the film begins with an introduction to the main character",
   "inciting incident disrupts their routine",
   "explores themes of perseverance, identity, and the human condition",
   "offering viewers a compelling story that resonates on multiple levels"]

/-- plot_finder.py lines 300-304. -/
def movie_keywords : List String :=
  ["film", "movie", "story", "plot", "character", "protagonist",
   "drama", "comedy", "thriller", "romance", "action",
   "directed", "starring", "cast", "screenplay", "cinema"]

/-- plot_finder.py line 306. -/
def hasMovieKeywords (text_lower : String) : Bool :=
  movie_keywords.any (fun k => containsStr text_lower k)

/-- PlotFinder._is_valid_plot_content (plot_finder.py lines 223-316).  The
Python early returns become a nested if/else chain; `text.lower()` is
computed once there and inlined here. -/
def is_valid_plot_content (text : String) : Bool :=
  if text = "" ∨ (strTrim text).length < 100 then false
  else if 3 ≤ indicatorCount (strLower text) then false
  else if (security_indicators.take 5).any (fun i => containsStr (strLower text) i) then false
  else if simulated_patterns.any (fun p => containsStr (strLower text) p) then false
  else if (splitOnChar (Char.ofNat 46) text.data).length < 3 then false
  else if 400 ≤ text.length ∧ hasMovieKeywords (strLower text) = true
          ∧ indicatorCount (strLower text) = 0 then true
  else if 300 ≤ text.length ∧ hasMovieKeywords (strLower text) = true
          ∧ indicatorCount (strLower text) = 0 then true
  else false

/-- plot_finder.py lines 471-475: hosts skipped before fetching. -/
def skip_sites : List String :=
  ["imdb.com", "netflix.com", "amazon.com", "hulu.com", "disney.com",
   "facebook.com", "instagram.com", "twitter.com", "youtube.com",
   "linkedin.com", "pinterest.com", "tiktok.com"]

/-- plot_finder.py line 479: high-trust hosts granted the relaxed floor. -/
def preferred_sites : List String := ["wikipedia.org", "britannica.com", "imdb.com"]

/-- plot_finder.py line 477: `any(site in url.lower() for site in skip_sites)`. -/
def isSkippedSite (url : String) : Bool :=
  skip_sites.any (fun s => containsStr (strLower url) s)

/-- plot_finder.py line 480: `any(site in url.lower() for site in preferred_sites)`. -/
def isPreferredSite (url : String) : Bool :=
  preferred_sites.any (fun s => containsStr (strLower url) s)

/-- plot_finder.py lines 482-490: acceptance decision for one extracted
candidate (`plot` is the value `_extract_plot_from_url` returned). -/
def acceptCandidate (url : String) (plot : Option String) : Option String :=
  match plot with
  | none => none
  | some p =>
    if 400 ≤ p.length then some p
    else if 300 ≤ p.length && isPreferredSite url then some p
    else none

/-- plot_finder.py lines 467-490: scan one query's organic results (already
truncated to the first 10 by the caller).  Returns the accepted plot, if any,
paired with the list of URLs that were handed to `_extract_plot_from_url`
(the fetch trace). -/
def scanResults (extract : String → Option String) :
    List String → Option String × List String
  | [] => (none, [])
  | url :: rest =>
    if isSkippedSite url then scanResults extract rest
    else
      match acceptCandidate url (extract url) with
      | some p => (some p, [url])
      | none =>
        let t := scanResults extract rest
        (t.1, url :: t.2)

/-- PlotFinder._search_movie_plot (plot_finder.py lines 451-499), with the
network abstracted: `queries` is the list of each query's organic result
URLs, and `extract` is the fetch-and-extract oracle standing for
`_extract_plot_from_url`.  Returns the accepted plot, if any, together with
the trace of URLs fetched. -/
def searchMoviePlot (extract : String → Option String) :
    List (List String) → Option String × List String
  | [] => (none, [])
  | q :: rest =>
    match scanResults extract (q.take 10) with
    | (some p, t) => (some p, t)
    | (none, t) =>
      let r := searchMoviePlot extract rest
      (r.1, t ++ r.2)

/-- The candidate URLs the loop may fetch, in scan order: the first 10
results of each query, the skip-listed hosts removed. -/
def candidateList (queries : List (List String)) : List String :=
  queries.flatMap (fun q => (q.take 10).filter (fun u => !isSkippedSite u))

/-- Everything of a list up to and including the first element satisfying
`p`; the whole list when none does. -/
def takeThrough (p : α → Bool) : List α → List α
  | [] => []
  | a :: l => if p a then [a] else a :: takeThrough p l

/-- The validation tail of `_extract_plot_from_url` (plot_finder.py lines
385-390): the extracted text is returned only when the validator accepts it. -/
def validateExtracted (plot_text : String) : Option String :=
  if is_valid_plot_content plot_text then some plot_text else none

/-- A movie record as stored in one JSON file, restricted to the fields the
enrichment pipeline reads or writes.  A missing field is modelled by "". -/
structure MovieData where
  title : String
  year : String
  plot : String
  web_plot : String
  raw_web_plot : String
  plot_source : String
  last_updated : String
deriving DecidableEq, Repr

/-- Result statuses of PlotFinder.process_movie_file. -/
inductive ProcStatus where
  | noTitle      -- line 79: "No movie title found"
  | existing     -- line 88: plot already enhanced
  | adequate     -- line 98: current plot already detailed
  | noValidPlot  -- line 106: "No valid plot found"
  | tooShort     -- line 110: "Plot too short"
  | noSuitable   -- line 126: "No suitable plot found"
  | updated      -- line 134
deriving DecidableEq, Repr

/-- Outcome of one process_movie_file run: the reported status, the Python
`success` flag, the on-disk record after the run, whether the file was
rewritten, and whether any network call (search / fetch / Bedrock) was made. -/
structure ProcOutcome where
  status : ProcStatus
  success : Bool
  data : MovieData
  written : Bool
  networkUsed : Bool
deriving DecidableEq, Repr

/-- plot_finder.py lines 116-128: decide what to store after search and
Bedrock cleaning; `none` models the `"No suitable plot found"` early return
(before any write). -/
def storePlot (d1 : MovieData) (enhanced : String) (clean : Option String)
    (today : String) : Option MovieData :=
  match clean with
  | some c =>
    if 300 ≤ c.length then
      some { d1 with web_plot := c, raw_web_plot := enhanced,
                     plot_source := "web_scraped_bedrock_cleaned", last_updated := today }
    else if enhanced ≠ "" then
      some { d1 with web_plot := enhanced,
                     plot_source := "web_scraped", last_updated := today }
    else none
  | none =>
    if enhanced ≠ "" then
      some { d1 with web_plot := enhanced,
                     plot_source := "web_scraped", last_updated := today }
    else none

/-- plot_finder.py lines 89-93: an invalid existing web plot is cleared in
memory before re-enhancement. -/
def clearedInvalid (d : MovieData) : MovieData :=
  if d.web_plot ≠ "" ∧ ¬is_valid_plot_content d.web_plot then
    { d with web_plot := "", plot_source := "" }
  else d

/-- PlotFinder.process_movie_file (plot_finder.py lines 61-142), with the
two network oracles abstracted: `searchPlot` is what `_search_movie_plot`
would return and `bedrockClean` what `_extract_plot_with_bedrock` would
return on the found plot. -/
def process_movie_file (d : MovieData) (searchPlot : Option String)
    (bedrockClean : Option String) (today : String) : ProcOutcome :=
  if d.title = "" then ⟨.noTitle, false, d, false, false⟩
  else if 400 ≤ d.web_plot.length ∧ is_valid_plot_content d.web_plot then
    ⟨.existing, true, d, false, false⟩
  else if 800 ≤ d.plot.length then ⟨.adequate, true, d, false, false⟩
  else
    match searchPlot with
    | none => ⟨.noValidPlot, false, d, false, true⟩
    | some enhanced =>
      if enhanced.length < 200 then ⟨.tooShort, false, d, false, true⟩
      else
        match storePlot (clearedInvalid d) enhanced bedrockClean today with
        | some d2 => ⟨.updated, true, d2, true, true⟩
        | none => ⟨.noSuitable, false, d, false, true⟩

/-- clean_invalid_plots, per-record body (plot_finder.py lines 565-580):
returns the on-disk record after the pass and whether it was rewritten. -/
def cleanInvalidRecord (d : MovieData) (today : String) : MovieData × Bool :=
  if d.web_plot ≠ "" ∧ ¬is_valid_plot_content d.web_plot then
    ({ d with web_plot := "", plot_source := "", last_updated := today }, true)
  else (d, false)

/-- Outcome of one fetch attempt inside `_extract_plot_from_url`
(plot_finder.py lines 342-350). -/
inductive FetchAttempt where
  | ok (body : String) (contentType : String)
  | sslError    -- requests.exceptions.SSLError
  | connError   -- requests.exceptions.ConnectionError
  | timeout     -- requests.exceptions.Timeout
  | otherError  -- any other exception (handled by the outer handler, line 392)
deriving DecidableEq, Repr

/-- Result of the fetch phase: the response, if any, and whether the
unverified second attempt was issued. -/
structure FetchResult where
  response : Option (String × String)
  retriedUnverified : Bool
deriving DecidableEq, Repr

/-- plot_finder.py lines 341-350: first attempt with `verify=True`; on
SSLError, ConnectionError or Timeout, one retry with `verify=False`; a
Timeout of the retry returns no content, any other retry failure reaches the
outer handler (line 392) which also returns no content. -/
def fetchWithFallback (first second : FetchAttempt) : FetchResult :=
  match first with
  | .ok body ct => ⟨some (body, ct), false⟩
  | .sslError | .connError | .timeout =>
    match second with
    | .ok body ct => ⟨some (body, ct), true⟩
    | _ => ⟨none, true⟩
  | .otherError => ⟨none, false⟩

/-- The MovieRecord provenance invariant: a non-empty enriched plot carries
one of the two fixed provenance values. -/
def recordInvariant (d : MovieData) : Prop :=
  d.web_plot ≠ "" →
    d.plot_source = "web_scraped" ∨ d.plot_source = "web_scraped_bedrock_cleaned"

end PlotFinder

namespace WebPlotScraper

open PlotFinder (MovieData)

/-- update_movie_plot (web_plot_scraper.py lines 166-205), with the network
abstracted as in `PlotFinder.process_movie_file`: returns the on-disk record
after the run and whether it was rewritten. -/
def update_movie_plot (d : MovieData) (searchPlot : Option String)
    (bedrockClean : Option String) (today : String) : MovieData × Bool :=
  if 500 ≤ d.plot.length then (d, false)
  else
    match searchPlot with
    | none => (d, false)
    | some web_plot =>
      if 500 ≤ web_plot.length then
        match bedrockClean with
        | some clean_plot =>
          if clean_plot ≠ "" then
            ({ d with web_plot := clean_plot, raw_web_plot := web_plot,
                      plot_source := "web_scraped_bedrock_cleaned",
                      last_updated := today }, true)
          else
            ({ d with web_plot := web_plot,
                      plot_source := "web_scraped", last_updated := today }, true)
        | none =>
          ({ d with web_plot := web_plot,
                    plot_source := "web_scraped", last_updated := today }, true)
      else (d, false)

end WebPlotScraper

namespace PlotFinder

/-! Concrete inputs used by witnesses and counterexamples. -/

/-- A 400-character text with a movie keyword, no noise indicators and no
sentence-ending periods. -/
def c1bad : String := "film" ++ String.mk (List.replicate 396 'x')

/-- A 108-character narrative sentence block free of noise indicators. -/
def goodSentence : String :=
  "In this film the hero meets a rival. They travel across the land. A battle decides the fate of the kingdom. "

/-- A 432-character valid narrative text. -/
def text432 : String := goodSentence ++ goodSentence ++ goodSentence ++ goodSentence

/-- A 324-character valid narrative text (within the relaxed 300-399 band). -/
def text324 : String := goodSentence ++ goodSentence ++ goodSentence

/-- A cookie-consent banner: plenty of noise indicators, no narrative. -/
def cookieBanner : String :=
  "We use cookies on this site. Please accept cookies to continue, and see our cookie policy and privacy policy for details about consent and data protection. By continuing you agree to the terms of service. Click here to review the privacy notice and manage your preferences at any time, or read more below. "

/-- A 540-character valid narrative text (above the scraper's 500 floor). -/
def text540 : String :=
  goodSentence ++ goodSentence ++ goodSentence ++ goodSentence ++ goodSentence

/-- A fresh record with a short base plot and no enriched plot. -/
def sampleRecord : MovieData :=
  ⟨"Test Film", "2020", "short", "", "", "", ""⟩

/-- A record holding an invalid (noise) enriched plot. -/
def noisyRecord : MovieData :=
  { sampleRecord with web_plot := cookieBanner,
                      plot_source := "web_scraped" }

/-- One query returning a single ordinary article URL. -/
def exampleQueries : List (List String) := [["https://example.com/film-plot"]]

end PlotFinder

namespace PlotFinder

/-! Helper lemmas shared by the claim theorems. -/

/-- If the total indicator count is zero, the top-five security check fails. -/
theorem take5_any_eq_false_of_count_zero (tl : String)
    (h : indicatorCount tl = 0) :
    (security_indicators.take 5).any (fun i => containsStr tl i) = false := by
  rw [List.any_eq_false]
  intro x hx
  have hall : x ∈ all_indicators := by
    have hsec : x ∈ security_indicators := List.mem_of_mem_take hx
    simp only [all_indicators, List.mem_append]
    exact Or.inl (Or.inl (Or.inl (Or.inl hsec)))
  have hz := List.countP_eq_zero.mp h x hall
  simpa using hz

/-- A text of length at least 300 is not the empty string. -/
theorem ne_empty_of_le_length (t : String) (h : 300 ≤ t.length) : t ≠ "" := by
  intro he
  rw [he] at h
  revert h
  decide

/-- Acceptance of the validator given all the conditions its rejection
stages test, with the strict length floor. -/
theorem valid_of_conditions (t : String)
    (hlen : 300 ≤ t.length)
    (hkw : hasMovieKeywords (strLower t) = true)
    (hind : indicatorCount (strLower t) = 0)
    (htrim : 100 ≤ (strTrim t).length)
    (hsent : 3 ≤ (splitOnChar (Char.ofNat 46) t.data).length)
    (hsim : simulated_patterns.any (fun p => containsStr (strLower t) p) = false) :
    is_valid_plot_content t = true := by
  rw [is_valid_plot_content]
  rw [if_neg (by
    push_neg
    exact ⟨ne_empty_of_le_length t hlen, by omega⟩)]
  rw [if_neg (by omega)]
  rw [if_neg (by simp [take5_any_eq_false_of_count_zero (strLower t) hind])]
  rw [if_neg (by simp [hsim])]
  rw [if_neg (by omega)]
  by_cases h4 : 400 ≤ t.length
  · rw [if_pos ⟨h4, hkw, hind⟩]
  · rw [if_neg (fun hc => h4 hc.1), if_pos ⟨hlen, hkw, hind⟩]

end PlotFinder

namespace Claims

open PlotFinder

/-- C1 counterexample: a text of length 400 containing the movie keyword
"film" and zero noise indicators, but with no sentence-ending periods, is
rejected by the validator, so length, keyword and zero-noise alone do not
guarantee acceptance. -/
theorem c1_counterexample :
    400 ≤ c1bad.length ∧ hasMovieKeywords (strLower c1bad) = true ∧
    indicatorCount (strLower c1bad) = 0 ∧ is_valid_plot_content c1bad = false := by
  decide

/-- C1 (amended): text of length ≥ 400 with a movie keyword and zero noise
indicators is accepted provided it also passes the validator's earlier
rejection stages: trimmed length ≥ 100, at least 3 period-separated
segments, and no generic simulated-plot pattern. -/
theorem c1_amended_accepts (t : String)
    (hlen : 400 ≤ t.length)
    (hkw : hasMovieKeywords (strLower t) = true)
    (hind : indicatorCount (strLower t) = 0)
    (htrim : 100 ≤ (strTrim t).length)
    (hsent : 3 ≤ (splitOnChar (Char.ofNat 46) t.data).length)
    (hsim : simulated_patterns.any (fun p => containsStr (strLower t) p) = false) :
    is_valid_plot_content t = true :=
  valid_of_conditions t (by omega) hkw hind htrim hsent hsim

/-- Witness for C1: the 432-character narrative text satisfies every
hypothesis and is accepted. -/
theorem c1_witness :
    (400 ≤ text432.length ∧ hasMovieKeywords (strLower text432) = true ∧
     indicatorCount (strLower text432) = 0 ∧ 100 ≤ (strTrim text432).length ∧
     3 ≤ (splitOnChar (Char.ofNat 46) text432.data).length ∧
     simulated_patterns.any (fun p => containsStr (strLower text432) p) = false) ∧
    is_valid_plot_content text432 = true :=
  ⟨by decide, c1_amended_accepts text432 (by decide) (by decide) (by decide)
      (by decide) (by decide) (by decide)⟩

end Claims

namespace Claims

open PlotFinder

/-- C2 counterexample: a 324-character narrative text with a movie keyword
and zero noise indicators is accepted by the validator although no
preferred-source flag is (or can be) supplied — `_is_valid_plot_content`
takes only the text. -/
theorem c2_counterexample :
    300 ≤ text324.length ∧ text324.length < 400 ∧
    hasMovieKeywords (strLower text324) = true ∧
    indicatorCount (strLower text324) = 0 ∧
    is_valid_plot_content text324 = true := by
  decide

/-- C2 (amended): the validator accepts text of length 300-399 with a movie
keyword and zero noise indicators unconditionally (given the earlier
rejection stages pass); it has no preferred-source parameter — the
preferred-source-only relaxation lives in the search loop, not the
validator. -/
theorem c2_amended_accepts (t : String)
    (hlen : 300 ≤ t.length) (_hlt : t.length < 400)
    (hkw : hasMovieKeywords (strLower t) = true)
    (hind : indicatorCount (strLower t) = 0)
    (htrim : 100 ≤ (strTrim t).length)
    (hsent : 3 ≤ (splitOnChar (Char.ofNat 46) t.data).length)
    (hsim : simulated_patterns.any (fun p => containsStr (strLower t) p) = false) :
    is_valid_plot_content t = true :=
  valid_of_conditions t hlen hkw hind htrim hsent hsim

/-- Witness for C2: the 324-character narrative text satisfies every
hypothesis and is accepted. -/
theorem c2_witness :
    (300 ≤ text324.length ∧ text324.length < 400 ∧
     hasMovieKeywords (strLower text324) = true ∧
     indicatorCount (strLower text324) = 0 ∧ 100 ≤ (strTrim text324).length ∧
     3 ≤ (splitOnChar (Char.ofNat 46) text324.data).length ∧
     simulated_patterns.any (fun p => containsStr (strLower text324) p) = false) ∧
    is_valid_plot_content text324 = true :=
  ⟨by decide, c2_amended_accepts text324 (by decide) (by decide) (by decide)
      (by decide) (by decide) (by decide) (by decide)⟩

end Claims

namespace PlotFinder

/-- A list has an element whose image under `g` is `some` exactly when
`findSome?` succeeds on it. -/
theorem any_isSome_eq_findSome?_isSome (g : α → Option β) (l : List α) :
    l.any (fun a => (g a).isSome) = (List.findSome? g l).isSome := by
  induction l with
  | nil => simp
  | cons a l ih =>
    rw [List.any_cons, List.findSome?_cons]
    cases h : g a
    · simpa using ih
    · simp [h]

/-- `takeThrough` ignores the tail past a hit. -/
theorem takeThrough_append_of_any (p : α → Bool) (l₁ l₂ : List α)
    (h : l₁.any p = true) :
    takeThrough p (l₁ ++ l₂) = takeThrough p l₁ := by
  induction l₁ with
  | nil => simp at h
  | cons a l ih =>
    rw [List.cons_append, takeThrough, takeThrough]
    by_cases hp : p a
    · simp [hp]
    · rw [List.any_cons] at h
      simp only [hp] at h ⊢
      simp only [Bool.false_or] at h
      rw [ih h]

/-- `takeThrough` passes over a hit-free prefix. -/
theorem takeThrough_append_of_none (p : α → Bool) (l₁ l₂ : List α)
    (h : l₁.any p = false) :
    takeThrough p (l₁ ++ l₂) = l₁ ++ takeThrough p l₂ := by
  induction l₁ with
  | nil => simp
  | cons a l ih =>
    rw [List.any_cons, Bool.or_eq_false_iff] at h
    rw [List.cons_append, takeThrough]
    simp only [h.1]
    rw [if_neg (by simp [h.1]), ih h.2, List.cons_append]

/-- `takeThrough` keeps a hit-free list whole. -/
theorem takeThrough_eq_self_of_none (p : α → Bool) (l : List α)
    (h : l.any p = false) :
    takeThrough p l = l := by
  induction l with
  | nil => rfl
  | cons a l ih =>
    rw [List.any_cons, Bool.or_eq_false_iff] at h
    rw [takeThrough, if_neg (by simp [h.1]), ih h.2]

/-- One query's scan equals first-hit search over its non-skipped URLs,
and its fetch trace is everything up to and including the first hit. -/
theorem scanResults_eq (f : String → Option String) (l : List String) :
    scanResults f l =
      (List.findSome? (fun u => acceptCandidate u (f u))
         (l.filter (fun u => !isSkippedSite u)),
       takeThrough (fun u => (acceptCandidate u (f u)).isSome)
         (l.filter (fun u => !isSkippedSite u))) := by
  induction l with
  | nil => simp [scanResults, takeThrough]
  | cons url rest ih =>
    rw [scanResults]
    by_cases h : isSkippedSite url
    · rw [if_pos h, List.filter_cons_of_neg (by simp [h])]
      exact ih
    · rw [if_neg h, List.filter_cons_of_pos (by simp [h])]
      cases hac : acceptCandidate url (f url) with
      | some p =>
        rw [List.findSome?_cons, hac, takeThrough]
        simp [hac]
      | none =>
        rw [List.findSome?_cons, hac, takeThrough, ih]
        simp [hac]

/-- The whole search loop equals first-hit search over the flattened
candidate list, and its fetch trace is everything up to and including the
first hit. -/
theorem searchMoviePlot_eq (f : String → Option String)
    (queries : List (List String)) :
    searchMoviePlot f queries =
      (List.findSome? (fun u => acceptCandidate u (f u)) (candidateList queries),
       takeThrough (fun u => (acceptCandidate u (f u)).isSome)
         (candidateList queries)) := by
  induction queries with
  | nil => simp [searchMoviePlot, candidateList, takeThrough]
  | cons q rest ih =>
    rw [searchMoviePlot, scanResults_eq]
    have hcand : candidateList (q :: rest) =
        (q.take 10).filter (fun u => !isSkippedSite u) ++ candidateList rest := by
      simp [candidateList]
    cases hfs : List.findSome? (fun u => acceptCandidate u (f u))
        ((q.take 10).filter (fun u => !isSkippedSite u)) with
    | some p =>
      have hany : ((q.take 10).filter (fun u => !isSkippedSite u)).any
          (fun u => (acceptCandidate u (f u)).isSome) = true := by
        rw [any_isSome_eq_findSome?_isSome, hfs]
        rfl
      simp [hfs, hcand, List.findSome?_append,
        takeThrough_append_of_any _ _ _ hany]
    | none =>
      have hany : ((q.take 10).filter (fun u => !isSkippedSite u)).any
          (fun u => (acceptCandidate u (f u)).isSome) = false := by
        rw [any_isSome_eq_findSome?_isSome, hfs]
        rfl
      simp [hfs, hcand, List.findSome?_append,
        takeThrough_append_of_none _ _ _ hany,
        takeThrough_eq_self_of_none _ _ hany, ih]

end PlotFinder

namespace Claims

open PlotFinder

/-- C3: the search-and-extract loop is first-match-wins: its result is the
first candidate (among the first 10 results of each query, skip-listed hosts
removed) whose extraction is accepted — length ≥ 400 outright, or ≥ 300
from a preferred host (`acceptCandidate`) — and its fetch trace stops at
that first acceptance. -/
theorem c3_first_match_wins (extract : String → Option String)
    (queries : List (List String)) :
    searchMoviePlot extract queries =
      (List.findSome? (fun u => acceptCandidate u (extract u))
         (candidateList queries),
       takeThrough (fun u => (acceptCandidate u (extract u)).isSome)
         (candidateList queries)) :=
  searchMoviePlot_eq extract queries

end Claims

namespace PlotFinder

/-- Clearing an invalid web plot does not touch the title. -/
theorem clearedInvalid_title (d : MovieData) :
    (clearedInvalid d).title = d.title := by
  unfold clearedInvalid
  split <;> rfl

/-- A successful store keeps the title and sets one of the two provenance
values. -/
theorem storePlot_eq_some (d1 : MovieData) (e : String) (c : Option String)
    (t : String) (d2 : MovieData) (h : storePlot d1 e c t = some d2) :
    d2.title = d1.title ∧
    (d2.plot_source = "web_scraped" ∨
     d2.plot_source = "web_scraped_bedrock_cleaned") := by
  unfold storePlot at h
  cases c with
  | some cc =>
    simp only [] at h
    by_cases h1 : 300 ≤ cc.length
    · rw [if_pos h1] at h
      injection h with h
      subst h
      exact ⟨rfl, Or.inr rfl⟩
    · rw [if_neg h1] at h
      by_cases h2 : e ≠ ""
      · rw [if_pos h2] at h
        injection h with h
        subst h
        exact ⟨rfl, Or.inl rfl⟩
      · rw [if_neg h2] at h
        cases h
  | none =>
    simp only [] at h
    by_cases h2 : e ≠ ""
    · rw [if_pos h2] at h
      injection h with h
      subst h
      exact ⟨rfl, Or.inl rfl⟩
    · rw [if_neg h2] at h
      cases h

/-- The eligibility check short-circuits on a long, valid stored web plot:
no network, no write, record untouched. -/
theorem process_skip_existing (d : MovieData) (sp bp : Option String)
    (t : String) (htitle : d.title ≠ "") (hlen : 400 ≤ d.web_plot.length)
    (hval : is_valid_plot_content d.web_plot = true) :
    process_movie_file d sp bp t = ⟨.existing, true, d, false, false⟩ := by
  unfold process_movie_file
  rw [if_neg htitle, if_pos ⟨hlen, hval⟩]

/-- A run that reports `updated` had a nonempty title, which it preserves. -/
theorem process_updated_title (d : MovieData) (sp bp : Option String)
    (t : String) (h : (process_movie_file d sp bp t).status = .updated) :
    d.title ≠ "" ∧ (process_movie_file d sp bp t).data.title = d.title := by
  unfold process_movie_file at h ⊢
  by_cases h1 : d.title = ""
  · rw [if_pos h1] at h
    exact absurd h (by simp)
  · rw [if_neg h1] at h ⊢
    refine ⟨h1, ?_⟩
    by_cases h2 : 400 ≤ d.web_plot.length ∧ is_valid_plot_content d.web_plot = true
    · rw [if_pos h2]
    · rw [if_neg h2]
      by_cases h3 : 800 ≤ d.plot.length
      · rw [if_pos h3]
      · rw [if_neg h3]
        cases sp with
        | none => rfl
        | some e =>
          simp only []
          by_cases h4 : e.length < 200
          · rw [if_pos h4]
          · rw [if_neg h4]
            cases hsp : storePlot (clearedInvalid d) e bp t with
            | none => simp
            | some d2 =>
              simp only [hsp]
              rw [(storePlot_eq_some _ _ _ _ _ hsp).1, clearedInvalid_title]

/-- Any write by the enrichment run satisfies the provenance invariant. -/
theorem process_invariant (d : MovieData) (sp bp : Option String) (t : String)
    (h : (process_movie_file d sp bp t).written = true) :
    recordInvariant (process_movie_file d sp bp t).data := by
  unfold process_movie_file at h ⊢
  by_cases h1 : d.title = ""
  · rw [if_pos h1] at h
    exact absurd h (by simp)
  · rw [if_neg h1] at h ⊢
    by_cases h2 : 400 ≤ d.web_plot.length ∧ is_valid_plot_content d.web_plot = true
    · rw [if_pos h2] at h
      exact absurd h (by simp)
    · rw [if_neg h2] at h ⊢
      by_cases h3 : 800 ≤ d.plot.length
      · rw [if_pos h3] at h
        exact absurd h (by simp)
      · rw [if_neg h3] at h ⊢
        cases sp with
        | none => exact absurd h (by simp)
        | some e =>
          simp only [] at h ⊢
          by_cases h4 : e.length < 200
          · rw [if_pos h4] at h
            exact absurd h (by simp)
          · rw [if_neg h4] at h ⊢
            cases hsp : storePlot (clearedInvalid d) e bp t with
            | none =>
              rw [hsp] at h
              exact absurd h (by simp)
            | some d2 =>
              exact fun _ => (storePlot_eq_some _ _ _ _ _ hsp).2

/-- Any write by the maintenance pass satisfies the provenance invariant. -/
theorem clean_invariant (d : MovieData) (t : String)
    (h : (cleanInvalidRecord d t).2 = true) :
    recordInvariant (cleanInvalidRecord d t).1 := by
  unfold cleanInvalidRecord at h ⊢
  by_cases hc : d.web_plot ≠ "" ∧ ¬is_valid_plot_content d.web_plot
  · rw [if_pos hc]
    intro hw
    exact (hw rfl).elim
  · rw [if_neg hc] at h
    exact absurd h (by simp)

/-- Any write by web_plot_scraper's updater satisfies the provenance
invariant. -/
theorem update_invariant (d : MovieData) (sp bp : Option String) (t : String)
    (h : (WebPlotScraper.update_movie_plot d sp bp t).2 = true) :
    recordInvariant (WebPlotScraper.update_movie_plot d sp bp t).1 := by
  unfold WebPlotScraper.update_movie_plot at h ⊢
  by_cases h1 : 500 ≤ d.plot.length
  · rw [if_pos h1] at h
    exact absurd h (by simp)
  · rw [if_neg h1] at h ⊢
    cases sp with
    | none => exact absurd h (by simp)
    | some wp =>
      simp only [] at h ⊢
      by_cases h2 : 500 ≤ wp.length
      · rw [if_pos h2]
        cases bp with
        | some c =>
          simp only []
          by_cases h3 : c ≠ ""
          · rw [if_pos h3]
            intro _
            exact Or.inr rfl
          · rw [if_neg h3]
            intro _
            exact Or.inl rfl
        | none =>
          intro _
          exact Or.inl rfl
      · rw [if_neg h2] at h
        exact absurd h (by simp)

/-- A record that passes the eligibility check always reaches the network
phase. -/
theorem process_network (d : MovieData) (sp bp : Option String) (t : String)
    (htitle : d.title ≠ "")
    (hskip : ¬(400 ≤ d.web_plot.length ∧ is_valid_plot_content d.web_plot = true))
    (hplot : ¬800 ≤ d.plot.length) :
    (process_movie_file d sp bp t).networkUsed = true := by
  unfold process_movie_file
  rw [if_neg htitle, if_neg hskip, if_neg hplot]
  cases sp with
  | none => rfl
  | some e =>
    simp only []
    by_cases h4 : e.length < 200
    · rw [if_pos h4]
    · rw [if_neg h4]
      cases storePlot (clearedInvalid d) e bp t <;> rfl

/-- When every page's text fails validation, the search loop yields
nothing. -/
theorem searchMoviePlot_none_of_rejected (pageText : String → String)
    (queries : List (List String))
    (hrej : ∀ url ∈ candidateList queries,
      is_valid_plot_content (pageText url) = false) :
    (searchMoviePlot (fun u => validateExtracted (pageText u)) queries).1
      = none := by
  rw [searchMoviePlot_eq]
  simp only []
  rw [List.findSome?_eq_none_iff]
  intro u hu
  rw [validateExtracted, if_neg (by simp [hrej u hu])]
  rfl

/-- A URL whose lowering contains "imdb.com" is on the skip list. -/
theorem skipped_of_imdb (url : String)
    (h : containsStr (strLower url) "imdb.com" = true) :
    isSkippedSite url = true := by
  unfold isSkippedSite
  rw [List.any_eq_true]
  exact ⟨"imdb.com", by simp [skip_sites], h⟩

end PlotFinder

namespace Claims

open PlotFinder

/-- C4 counterexample: a first run that stores a 324-character plot (legal
via the relaxed preferred-source floor) reports `updated`, yet the second
run on the very record written by the first one still reaches the network
(the ≥ 400 eligibility check does not short-circuit). -/
theorem c4_counterexample :
    (process_movie_file sampleRecord (some text324) none "2024-01-01").status
      = .updated ∧
    (process_movie_file sampleRecord (some text324) none "2024-01-01").written
      = true ∧
    (process_movie_file sampleRecord (some text324) none "2024-01-01").data.web_plot
      = text324 ∧
    (process_movie_file
        (process_movie_file sampleRecord (some text324) none "2024-01-01").data
        none none "2024-02-02").networkUsed = true := by
  decide

/-- C4 (amended): a second run is network-free and write-free exactly when
the first successful run stored a web plot of length ≥ 400 that passes
re-validation; the run then short-circuits to `existing` and leaves the
record as it was. -/
theorem c4_amended (d : MovieData) (sp bp : Option String) (t : String)
    (sp2 bp2 : Option String) (t2 : String)
    (hupd : (process_movie_file d sp bp t).status = .updated)
    (hlen : 400 ≤ (process_movie_file d sp bp t).data.web_plot.length)
    (hval : is_valid_plot_content (process_movie_file d sp bp t).data.web_plot
      = true) :
    process_movie_file (process_movie_file d sp bp t).data sp2 bp2 t2 =
      ⟨.existing, true, (process_movie_file d sp bp t).data, false, false⟩ := by
  have ht := process_updated_title d sp bp t hupd
  exact process_skip_existing _ sp2 bp2 t2 (by rw [ht.2]; exact ht.1) hlen hval

/-- Witness for C4: a first run that stores the 432-character plot;
the second run short-circuits with no network use and no write. -/
theorem c4_witness :
    ((process_movie_file sampleRecord (some text432) none "2024-01-01").status
       = .updated ∧
     400 ≤ (process_movie_file sampleRecord (some text432) none
       "2024-01-01").data.web_plot.length ∧
     is_valid_plot_content (process_movie_file sampleRecord (some text432)
       none "2024-01-01").data.web_plot = true) ∧
    process_movie_file
        (process_movie_file sampleRecord (some text432) none "2024-01-01").data
        none none "2024-02-02" =
      ⟨.existing, true,
       (process_movie_file sampleRecord (some text432) none "2024-01-01").data,
       false, false⟩ :=
  ⟨by decide,
   c4_amended sampleRecord (some text432) none "2024-01-01" none none
     "2024-02-02" (by decide) (by decide) (by decide)⟩

/-- C5 counterexample: with a 324-character accepted candidate and a failed
normalization, the orchestrator stores the raw candidate with provenance
"web_scraped" and reports `updated` — it does not require ≥ 400 characters
and does not transition to FAILED. -/
theorem c5_counterexample :
    text324.length < 400 ∧
    (process_movie_file sampleRecord (some text324) none "2024-01-01").status
      = .updated ∧
    (process_movie_file sampleRecord (some text324) none "2024-01-01").data.web_plot
      = text324 ∧
    (process_movie_file sampleRecord (some text324) none "2024-01-01").data.plot_source
      = "web_scraped" := by
  decide

/-- C5 (amended): after a candidate of length ≥ 200 is accepted, a
normalization result of ≥ 300 characters is stored with provenance
"web_scraped_bedrock_cleaned" and the raw candidate is retained; when
normalization fails or falls short, the raw candidate is stored with
provenance "web_scraped" whatever its length (it is nonempty), so the
FAILED("no suitable plot") branch is unreachable. -/
theorem c5_amended (d : MovieData) (raw : String) (clean : Option String)
    (today : String)
    (htitle : d.title ≠ "")
    (hskip : ¬(400 ≤ d.web_plot.length ∧ is_valid_plot_content d.web_plot = true))
    (hplot : d.plot.length < 800)
    (hraw : 200 ≤ raw.length) :
    (∀ c, clean = some c → 300 ≤ c.length →
      process_movie_file d (some raw) clean today =
        ⟨.updated, true,
         { clearedInvalid d with web_plot := c, raw_web_plot := raw,
                                 plot_source := "web_scraped_bedrock_cleaned",
                                 last_updated := today },
         true, true⟩) ∧
    ((clean = none ∨ ∃ c, clean = some c ∧ c.length < 300) →
      process_movie_file d (some raw) clean today =
        ⟨.updated, true,
         { clearedInvalid d with web_plot := raw,
                                 plot_source := "web_scraped",
                                 last_updated := today },
         true, true⟩) := by
  have hne : raw ≠ "" := by
    intro he
    rw [he] at hraw
    exact absurd hraw (by decide)
  unfold process_movie_file
  rw [if_neg htitle, if_neg hskip, if_neg (by omega : ¬800 ≤ d.plot.length)]
  simp only []
  rw [if_neg (by omega : ¬raw.length < 200)]
  constructor
  · intro c hc hclen
    subst hc
    unfold storePlot
    simp only []
    rw [if_pos hclen]
  · intro hcase
    rcases hcase with h | ⟨c, hc, hclen⟩
    · subst h
      unfold storePlot
      simp only []
      rw [if_pos hne]
    · subst hc
      unfold storePlot
      simp only []
      rw [if_neg (by omega : ¬300 ≤ c.length), if_pos hne]

/-- Witness for C5: both normalization outcomes at concrete inputs — a
successful cleaning (stored with cleaned provenance, raw retained) and a
failed one (raw stored with scraped provenance). -/
theorem c5_witness :
    (sampleRecord.title ≠ "" ∧
     ¬(400 ≤ sampleRecord.web_plot.length ∧
        is_valid_plot_content sampleRecord.web_plot = true) ∧
     sampleRecord.plot.length < 800 ∧ 200 ≤ text432.length) ∧
    process_movie_file sampleRecord (some text432) (some text324)
        "2024-01-01" =
      ⟨.updated, true,
       { clearedInvalid sampleRecord with
           web_plot := text324, raw_web_plot := text432,
           plot_source := "web_scraped_bedrock_cleaned",
           last_updated := "2024-01-01" },
       true, true⟩ ∧
    process_movie_file sampleRecord (some text432) none "2024-01-01" =
      ⟨.updated, true,
       { clearedInvalid sampleRecord with
           web_plot := text432, plot_source := "web_scraped",
           last_updated := "2024-01-01" },
       true, true⟩ :=
  ⟨⟨by decide, by decide, by decide, by decide⟩,
   (c5_amended sampleRecord text432 (some text324) "2024-01-01" (by decide)
     (by decide) (by decide) (by decide)).1 text324 rfl (by decide),
   (c5_amended sampleRecord text432 none "2024-01-01" (by decide)
     (by decide) (by decide) (by decide)).2 (Or.inl rfl)⟩

/-- C6 counterexample: a hard timeout of the first (verified) attempt does
not fail the fetch — the unverified retry is issued and can even succeed. -/
theorem c6_counterexample :
    fetchWithFallback .timeout (.ok "response body" "text/html") =
      ⟨some ("response body", "text/html"), true⟩ := rfl

/-- C6 (amended): the unverified retry is issued on a TLS failure, a
connection failure, or a first-attempt timeout alike; a first success is
returned with no retry; only a timeout of the retry itself (or any other
failure) yields no content; a non-connection error skips the retry. -/
theorem c6_amended (first second : FetchAttempt) :
    ((first = .sslError ∨ first = .connError ∨ first = .timeout) →
      (fetchWithFallback first second).retriedUnverified = true) ∧
    (∀ b ct, first = .ok b ct →
      fetchWithFallback first second = ⟨some (b, ct), false⟩) ∧
    (first = .timeout → second = .timeout →
      fetchWithFallback first second = ⟨none, true⟩) ∧
    (first = .otherError → fetchWithFallback first second = ⟨none, false⟩) := by
  cases first <;> cases second <;>
    simp [fetchWithFallback]

/-- Witness for C6: all four behaviours at concrete attempts. -/
theorem c6_witness :
    (fetchWithFallback .connError .timeout).retriedUnverified = true ∧
    fetchWithFallback (.ok "b" "text/html") .timeout =
      ⟨some ("b", "text/html"), false⟩ ∧
    fetchWithFallback .timeout .timeout = ⟨none, true⟩ ∧
    fetchWithFallback .otherError .timeout = ⟨none, false⟩ :=
  ⟨(c6_amended .connError .timeout).1 (Or.inr (Or.inl rfl)),
   (c6_amended (.ok "b" "text/html") .timeout).2.1 "b" "text/html" rfl,
   (c6_amended .timeout .timeout).2.2.1 rfl rfl,
   (c6_amended .otherError .timeout).2.2.2 rfl⟩

/-- C7: when every fetched page's extracted text fails validation, the
orchestrator reports FAILED("no valid plot") and writes nothing — the
record on disk is exactly the input record. -/
theorem c7_all_rejected (d : MovieData) (pageText : String → String)
    (queries : List (List String)) (bp : Option String) (today : String)
    (htitle : d.title ≠ "")
    (hskip : ¬(400 ≤ d.web_plot.length ∧ is_valid_plot_content d.web_plot = true))
    (hplot : d.plot.length < 800)
    (hrej : ∀ url ∈ candidateList queries,
      is_valid_plot_content (pageText url) = false) :
    process_movie_file d
        (searchMoviePlot (fun u => validateExtracted (pageText u)) queries).1
        bp today =
      ⟨.noValidPlot, false, d, false, true⟩ := by
  rw [searchMoviePlot_none_of_rejected pageText queries hrej]
  unfold process_movie_file
  rw [if_neg htitle, if_neg hskip, if_neg (by omega : ¬800 ≤ d.plot.length)]

/-- Witness for C7: every URL serves a cookie banner; the run fails and the
record is untouched. -/
theorem c7_witness :
    (sampleRecord.title ≠ "" ∧
     ¬(400 ≤ sampleRecord.web_plot.length ∧
        is_valid_plot_content sampleRecord.web_plot = true) ∧
     sampleRecord.plot.length < 800 ∧
     ∀ url ∈ candidateList exampleQueries,
       is_valid_plot_content ((fun _ => cookieBanner) url) = false) ∧
    process_movie_file sampleRecord
        (searchMoviePlot (fun u => validateExtracted ((fun _ => cookieBanner) u))
          exampleQueries).1 none "2024-01-01" =
      ⟨.noValidPlot, false, sampleRecord, false, true⟩ :=
  ⟨⟨by decide, by decide, by decide, by decide⟩,
   c7_all_rejected sampleRecord (fun _ => cookieBanner) exampleQueries none
     "2024-01-01" (by decide) (by decide) (by decide) (by decide)⟩

/-- C8: the maintenance pass blanks the enriched-plot and provenance fields
of any record whose stored plot fails re-validation, rewrites the file, and
the cleaned record reaches the network phase (is re-enriched) on the next
eligible run. -/
theorem c8_clean_invalid (d : MovieData) (today : String)
    (hweb : d.web_plot ≠ "") (hinv : is_valid_plot_content d.web_plot = false) :
    (cleanInvalidRecord d today).1.web_plot = "" ∧
    (cleanInvalidRecord d today).1.plot_source = "" ∧
    (cleanInvalidRecord d today).2 = true ∧
    ∀ sp bp t2, d.title ≠ "" → d.plot.length < 800 →
      (process_movie_file (cleanInvalidRecord d today).1 sp bp t2).networkUsed
        = true := by
  have hcond : d.web_plot ≠ "" ∧ ¬is_valid_plot_content d.web_plot :=
    ⟨hweb, by simp [hinv]⟩
  unfold cleanInvalidRecord
  rw [if_pos hcond]
  refine ⟨rfl, rfl, rfl, ?_⟩
  intro sp bp t2 htitle hplot
  exact process_network _ sp bp t2 htitle
    (fun hc => absurd (show (400:Nat) ≤ String.length "" from hc.1) (by decide))
    (fun h8 => absurd (show 800 ≤ d.plot.length from h8) (by omega))

/-- Witness for C8: cleaning the record holding a cookie-banner plot. -/
theorem c8_witness :
    (noisyRecord.web_plot ≠ "" ∧
     is_valid_plot_content noisyRecord.web_plot = false) ∧
    ((cleanInvalidRecord noisyRecord "2024-03-03").1.web_plot = "" ∧
     (cleanInvalidRecord noisyRecord "2024-03-03").1.plot_source = "" ∧
     (cleanInvalidRecord noisyRecord "2024-03-03").2 = true ∧
     ∀ sp bp t2, noisyRecord.title ≠ "" → noisyRecord.plot.length < 800 →
       (process_movie_file (cleanInvalidRecord noisyRecord "2024-03-03").1
         sp bp t2).networkUsed = true) :=
  ⟨⟨by decide, by decide⟩,
   c8_clean_invalid noisyRecord "2024-03-03" (by decide) (by decide)⟩

/-- C9: every write — by the enrichment run, the maintenance pass, or
web_plot_scraper's updater — leaves a record in which a non-empty enriched
plot carries provenance "web_scraped" or "web_scraped_bedrock_cleaned". -/
theorem c9_invariant_preserved :
    (∀ d sp bp today, (process_movie_file d sp bp today).written = true →
      recordInvariant (process_movie_file d sp bp today).data) ∧
    (∀ d today, (cleanInvalidRecord d today).2 = true →
      recordInvariant (cleanInvalidRecord d today).1) ∧
    (∀ d sp bp today, (WebPlotScraper.update_movie_plot d sp bp today).2 = true →
      recordInvariant (WebPlotScraper.update_movie_plot d sp bp today).1) :=
  ⟨process_invariant, clean_invariant, update_invariant⟩

/-- Witness for C9: a concrete write of each of the three operations
satisfies the invariant. -/
theorem c9_witness :
    ((process_movie_file sampleRecord (some text432) none "2024-01-01").written
       = true ∧
     recordInvariant
       (process_movie_file sampleRecord (some text432) none "2024-01-01").data) ∧
    ((cleanInvalidRecord noisyRecord "2024-01-01").2 = true ∧
     recordInvariant (cleanInvalidRecord noisyRecord "2024-01-01").1) ∧
    ((WebPlotScraper.update_movie_plot sampleRecord (some text540) none
        "2024-01-01").2 = true ∧
     recordInvariant (WebPlotScraper.update_movie_plot sampleRecord
        (some text540) none "2024-01-01").1) :=
  ⟨⟨by decide,
    c9_invariant_preserved.1 sampleRecord (some text432) none "2024-01-01"
      (by decide)⟩,
   ⟨by decide,
    c9_invariant_preserved.2.1 noisyRecord "2024-01-01" (by decide)⟩,
   ⟨by decide,
    c9_invariant_preserved.2.2 sampleRecord (some text540) none "2024-01-01"
      (by decide)⟩⟩

/-- C10: a URL containing "imdb.com" is always skipped before fetching,
although "imdb.com" is also on the preferred-sites list; hence a
non-skipped preferred URL necessarily contains "wikipedia.org" or
"britannica.com", so the relaxed 300-character floor can only apply to
those hosts. -/
theorem c10_imdb_skipped (url : String) :
    (containsStr (strLower url) "imdb.com" = true → isSkippedSite url = true) ∧
    (isSkippedSite url = false → isPreferredSite url = true →
      containsStr (strLower url) "wikipedia.org" = true ∨
      containsStr (strLower url) "britannica.com" = true) := by
  refine ⟨skipped_of_imdb url, ?_⟩
  intro hns hp
  unfold isPreferredSite at hp
  rcases List.any_eq_true.mp hp with ⟨s, hmem, hc⟩
  simp only [preferred_sites, List.mem_cons, List.not_mem_nil, or_false]
    at hmem
  rcases hmem with rfl | rfl | rfl
  · exact Or.inl hc
  · exact Or.inr hc
  · have hsk := skipped_of_imdb url hc
    simp [hsk] at hns

/-- Witness for C10: an IMDb URL is skipped; a Wikipedia URL is not skipped,
is preferred, and contains "wikipedia.org". -/
theorem c10_witness :
    (containsStr (strLower "https://www.imdb.com/title/tt0944947")
       "imdb.com" = true ∧
     isSkippedSite "https://www.imdb.com/title/tt0944947" = true) ∧
    (isSkippedSite "https://en.wikipedia.org/wiki/Sholay" = false ∧
     isPreferredSite "https://en.wikipedia.org/wiki/Sholay" = true ∧
     (containsStr (strLower "https://en.wikipedia.org/wiki/Sholay")
        "wikipedia.org" = true ∨
      containsStr (strLower "https://en.wikipedia.org/wiki/Sholay")
        "britannica.com" = true)) :=
  ⟨⟨by decide, (c10_imdb_skipped "https://www.imdb.com/title/tt0944947").1
      (by decide)⟩,
   ⟨by decide, by decide,
    (c10_imdb_skipped "https://en.wikipedia.org/wiki/Sholay").2
      (by decide) (by decide)⟩⟩

end Claims
